import Mathlib

/-!
Verification of the banner drag/reposition pipeline (src/Banner.ts).

Shallow embedding of the drag-gesture handlers of `src/Banner.ts`:
`getMousePos`, `handleDragStart`, `handleDragMove`, `handleDragEnd`,
`isModPressed`, and the initial-position computation of `getBannerElements`.

JavaScript numbers are modelled exactly by rationals (`ℚ`).  The one place
where IEEE special values matter — division by a zero element dimension in
`handleDragMove` — is modelled by the type `JSNum`, which adds `NaN` and the
two infinities and mirrors the JavaScript results of `/`, `*`, `+`, `>=`,
and lodash's `clamp` on them.  A handler that would throw a `TypeError`
(destructuring `e.targetTouches[0]` when the touch list is empty) is
modelled with `Except Unit`, `.error ()` standing for the thrown exception.
-/

namespace Banners

/-- A touch point of a `TouchEvent`: its client coordinates. -/
structure Touch where
  clientX : ℚ
  clientY : ℚ
deriving DecidableEq, Repr

/-- The fields of a DOM `MouseEvent` read by `Banner.ts`. -/
structure MouseEvent where
  clientX : ℚ
  clientY : ℚ
  altKey : Bool
  ctrlKey : Bool
  metaKey : Bool
  shiftKey : Bool
deriving DecidableEq, Repr

/-- The fields of a DOM `TouchEvent` read by `Banner.ts`: the active target
touch points and the modifier-key flags. -/
structure TouchEvent where
  targetTouches : List Touch
  altKey : Bool
  ctrlKey : Bool
  metaKey : Bool
  shiftKey : Bool
deriving DecidableEq, Repr

/-- `type MTEvent = MouseEvent | TouchEvent` (Banner.ts line 9). -/
inductive MTEvent where
  | mouse (m : MouseEvent)
  | touch (t : TouchEvent)
deriving DecidableEq, Repr

/-- `e instanceof MouseEvent`. -/
def isMouseEvent : MTEvent → Bool
  | .mouse _ => true
  | .touch _ => false

def MTEvent.altKey : MTEvent → Bool
  | .mouse m => m.altKey
  | .touch t => t.altKey

def MTEvent.ctrlKey : MTEvent → Bool
  | .mouse m => m.ctrlKey
  | .touch t => t.ctrlKey

def MTEvent.metaKey : MTEvent → Bool
  | .mouse m => m.metaKey
  | .touch t => t.metaKey

def MTEvent.shiftKey : MTEvent → Bool
  | .mouse m => m.shiftKey
  | .touch t => t.shiftKey

/-- `interface IDragData` (Banner.ts lines 10–15).  `x` and `y` start as
`null` (modelled by `none`) and hold the last pointer position once set. -/
structure IDragData where
  x : Option ℚ
  y : Option ℚ
  isDragging : Bool
  vertical : Bool
deriving DecidableEq, Repr

/-- The fields of the `HTMLImageElement` read and written by the drag
handlers: rendered and natural pixel dimensions, and the
`style.objectPosition` percentage pair (the style string `"X% Y%"` is
modelled as the pair of its two numbers, which is exactly what
`split(' ').map(parseFloat)` recovers from it). -/
structure ImgElement where
  clientWidth : ℚ
  clientHeight : ℚ
  naturalWidth : ℚ
  naturalHeight : ℚ
  objectPosition : ℚ × ℚ
deriving DecidableEq, Repr

/-- Modelled from the spec: `BannerDragModOption` is imported from
`src/Settings.ts`, which is not part of the sources; per the spec the
modifier-key policy is "one of: none-required, alt, ctrl, meta, shift".
The `isModPressed` switch in Banner.ts handles the four key cases and a
`default` (the none-required case). -/
inductive BannerDragModOption where
  | none
  | alt
  | ctrl
  | meta
  | shift
deriving DecidableEq, Repr

/-- JavaScript number results that can arise from the drag arithmetic:
a finite value, the two infinities produced by dividing a nonzero value
by zero, and `NaN` from `0/0`. -/
inductive JSNum where
  | nan
  | posInf
  | negInf
  | num (q : ℚ)
deriving DecidableEq, Repr

/-- JavaScript division `a / b` of finite values: finite quotient when
`b ≠ 0`, otherwise `±Infinity` or (for `0/0`) `NaN`. -/
def jsDiv (a b : ℚ) : JSNum :=
  if b ≠ 0 then .num (a / b)
  else if 0 < a then .posInf
  else if a < 0 then .negInf
  else .nan

/-- Multiplication of a JavaScript number by a positive finite constant
(here always `100`): infinities and `NaN` are preserved. -/
def jsMulPos (n : JSNum) (c : ℚ) : JSNum :=
  match n with
  | .nan => .nan
  | .posInf => .posInf
  | .negInf => .negInf
  | .num q => .num (q * c)

/-- JavaScript addition of a finite number and a possibly-special one. -/
def jsAdd (a : ℚ) (n : JSNum) : JSNum :=
  match n with
  | .nan => .nan
  | .posInf => .posInf
  | .negInf => .negInf
  | .num q => .num (a + q)

/-- JavaScript `>=` on possibly-special numbers: any comparison with `NaN`
is false; `Infinity >= x` is true and `x >= Infinity` (x finite or -∞) is
false; `x >= -Infinity` is true. -/
def jsGe : JSNum → JSNum → Bool
  | .nan, _ => false
  | _, .nan => false
  | .posInf, _ => true
  | _, .posInf => false
  | _, .negInf => true
  | .negInf, _ => false
  | .num a, .num b => b ≤ a

/-- lodash `clamp(q, lo, hi)` on finite values: two sequential
comparisons, `number <= upper ? number : upper` then
`number >= lower ? number : lower`. -/
def clampQ (q lo hi : ℚ) : ℚ :=
  let q1 := if q ≤ hi then q else hi
  if lo ≤ q1 then q1 else lo

/-- lodash `clamp(n, lo, hi)` on a possibly-special number (`baseClamp`):
`NaN` is returned unchanged; `Infinity` fails `<= upper` and is replaced by
`upper`; `-Infinity` passes `<= upper` but fails `>= lower` and is replaced
by `lower`. -/
def jsClamp (n : JSNum) (lo hi : ℚ) : JSNum :=
  match n with
  | .nan => .nan
  | .posInf => .num (if lo ≤ hi then hi else lo)
  | .negInf => .num lo
  | .num q => .num (clampQ q lo hi)

/-- `Math.round`: rounds to the nearest integer, halves toward `+∞`. -/
def jsRound (q : ℚ) : ℤ := ⌊q + 1 / 2⌋

/-- `getMousePos` (Banner.ts lines 18–21).  For a mouse event, its client
coordinates; for a touch event, the first target touch point's client
coordinates.  `e.targetTouches[0]` is `undefined` when the list is empty
and destructuring it throws a `TypeError`, modelled by `none`. -/
def getMousePos : MTEvent → Option (ℚ × ℚ)
  | .mouse m => some (m.clientX, m.clientY)
  | .touch t =>
    match t.targetTouches with
    | [] => none
    | tp :: _ => some (tp.clientX, tp.clientY)

/-- `isModPressed` (Banner.ts lines 76–84). -/
def isModPressed (e : MTEvent) (mod : BannerDragModOption) : Bool :=
  match mod with
  | .alt => e.altKey
  | .ctrl => e.ctrlKey
  | .meta => e.metaKey
  | .shift => e.shiftKey
  | .none => true

/-- `handleDragStart` (Banner.ts lines 24–32).  The `img` argument stands
for `e.target as HTMLImageElement`.  Returns the updated drag data, or
`.error ()` when `getMousePos` throws on an empty touch list. -/
def handleDragStart (e : MTEvent) (img : ImgElement) (d : IDragData)
    (modRequired : BannerDragModOption) : Except Unit IDragData :=
  if !isModPressed e modRequired && isMouseEvent e then .ok d
  else
    match getMousePos e with
    | none => .error ()
    | some (x, y) =>
      .ok { d with
        x := some x
        y := some y
        isDragging := true
        vertical := jsGe (jsDiv img.naturalHeight img.naturalWidth)
                         (jsDiv img.clientHeight img.clientWidth) }

/-- Writing `img.style.objectPosition = "px% py%"`.  When a component is
`NaN` or infinite the produced string is not valid CSS and the style
setter leaves the property unchanged; otherwise both components are
stored. -/
def setObjectPosition (img : ImgElement) (px py : JSNum) : ImgElement :=
  match px, py with
  | .num qx, .num qy => { img with objectPosition := (qx, qy) }
  | _, _ => img

/-- `handleDragMove` (Banner.ts lines 36–61).  The `img` argument stands
for `e.target as HTMLImageElement`; the result carries the updated element
(its `objectPosition`) and drag data.  In JavaScript `dragData.x - x`
coerces a `null` coordinate to `0`, hence `Option.getD 0`. -/
def handleDragMove (e : MTEvent) (img : ImgElement) (d : IDragData) :
    Except Unit (ImgElement × IDragData) :=
  if !d.isDragging then .ok (img, d)
  else
    match getMousePos e with
    | none => .error ()
    | some (x, y) =>
      let deltaX := jsMulPos (jsDiv (d.x.getD 0 - x) img.clientWidth) 100
      let deltaY := jsMulPos (jsDiv (d.y.getD 0 - y) img.clientHeight) 100
      let d' := { d with x := some x, y := some y }
      let currentX := img.objectPosition.1
      let currentY := img.objectPosition.2
      if d.vertical then
        let newY := jsClamp (jsAdd currentY deltaY) 0 100
        .ok (setObjectPosition img (.num currentX) newY, d')
      else
        let newX := jsClamp (jsAdd currentX deltaX) 0 100
        .ok (setObjectPosition img newX (.num currentY), d')

/-- `Math.round(parseFloat(n) * 1000) / 100000` (Banner.ts line 71):
normalizes a displayed percentage for persistence. -/
def roundNorm (pct : ℚ) : ℚ := (jsRound (pct * 1000) : ℚ) / 100000

/-- Rounding a normalized value to 5 decimal places — the spec's phrasing
of the persisted precision, used to compare against `roundNorm`. -/
def round5 (q : ℚ) : ℚ := (jsRound (q * 100000) : ℚ) / 100000

/-- The frontmatter patch handed to `plugin.metaManager.upsertBannerData`:
optional normalized `x` and `y` fields. -/
structure Patch where
  x : Option ℚ
  y : Option ℚ
deriving DecidableEq, Repr

/-- `handleDragEnd` (Banner.ts lines 64–73).  Returns the updated drag
data and the patch passed to `upsertBannerData` (`none` when no call is
issued).  The file path is forwarded to the persistence call unchanged and
is omitted here. -/
def handleDragEnd (img : ImgElement) (d : IDragData) :
    IDragData × Option Patch :=
  if !d.isDragging then (d, none)
  else
    let d' := { d with isDragging := false }
    let x := roundNorm img.objectPosition.1
    let y := roundNorm img.objectPosition.2
    (d', some (if d.vertical then { x := none, y := some y }
               else { x := some x, y := none }))

/-- The fresh drag data of `getBannerElements` (Banner.ts line 111):
`{ x: null, y: null, isDragging: false, vertical: true }`. -/
def initialDragData : IDragData :=
  { x := none, y := none, isDragging := false, vertical := true }

/-- The initial `objectPosition` computed by `getBannerElements`
(Banner.ts lines 110, 125–128): missing components default to `0.5`, each
is clamped into `[0,1]`, and the style is `"clampedX*100% clampedY*100%"`. -/
def initialObjectPosition (x0 y0 : Option ℚ) : ℚ × ℚ :=
  let x := x0.getD (1 / 2)
  let y := y0.getD (1 / 2)
  (clampQ x 0 1 * 100, clampQ y 0 1 * 100)

/-- The state of one banner image instance: the element, the drag data
closed over by the handlers, and the list of persistence calls issued so
far (in event order). -/
structure BannerState where
  img : ImgElement
  drag : IDragData
  calls : List Patch
deriving DecidableEq, Repr

/-- One input event as dispatched to the wired-up handlers
(Banner.ts lines 140–148): mousedown/touchstart, mousemove/touchmove,
mouseup/touchend. -/
inductive BannerEvent where
  | start (e : MTEvent) (mod : BannerDragModOption)
  | move (e : MTEvent)
  | endEv
deriving DecidableEq, Repr

/-- Dispatch one event to the corresponding handler.  A thrown exception
(`.error`) aborts the handler before it has mutated anything, so the state
is unchanged in that case. -/
def stepEvent (s : BannerState) (ev : BannerEvent) : BannerState :=
  match ev with
  | .start e mod =>
    match handleDragStart e s.img s.drag mod with
    | .ok d' => { s with drag := d' }
    | .error _ => s
  | .move e =>
    match handleDragMove e s.img s.drag with
    | .ok (img', d') => { s with img := img', drag := d' }
    | .error _ => s
  | .endEv =>
    let (d', p) := handleDragEnd s.img s.drag
    { s with drag := d', calls := s.calls ++ p.toList }

/-- Run a sequence of input events from a state. -/
def runEvents (s : BannerState) (evs : List BannerEvent) : BannerState :=
  evs.foldl stepEvent s

/-! Concrete fixtures -/

/-- A mouse event at the given client coordinates with no modifier key held. -/
def mkMouse (cx cy : ℚ) : MTEvent :=
  .mouse { clientX := cx, clientY := cy,
           altKey := false, ctrlKey := false, metaKey := false, shiftKey := false }

/-- A 400×200 rendered image of natural size 400×200 displayed at
`"50% 50%"`. -/
def img400x200 : ImgElement :=
  { clientWidth := 400, clientHeight := 200, naturalWidth := 400,
    naturalHeight := 200, objectPosition := (50, 50) }

/-- A fresh banner state for `img400x200`. -/
def state0 : BannerState :=
  { img := img400x200, drag := initialDragData, calls := [] }

/-- A touch event whose target-touch list is empty. -/
def zeroTouchEv : TouchEvent :=
  { targetTouches := [], altKey := false, ctrlKey := false,
    metaKey := false, shiftKey := false }

/-- Drag data of a gesture in progress, vertically locked, anchored at
`(100, 100)`. -/
def activeDrag : IDragData :=
  { x := some 100, y := some 100, isDragging := true, vertical := true }

/-- A 400×200 rendered image whose natural size is 400×100: its natural
aspect ratio (1/4) is below its rendered one (1/2), so a gesture started
on it locks the horizontal axis. -/
def wideImg : ImgElement :=
  { clientWidth := 400, clientHeight := 200, naturalWidth := 400,
    naturalHeight := 100, objectPosition := (50, 50) }

/-- A 400-wide image whose rendered height is 0, displayed at `"50% 50%"`. -/
def zeroHeightImg : ImgElement :=
  { clientWidth := 400, clientHeight := 0, naturalWidth := 400,
    naturalHeight := 200, objectPosition := (50, 50) }

/-! Helper lemmas -/

/-- A successful move never changes the `vertical` axis lock. -/
lemma handleDragMove_vertical (e : MTEvent) (img : ImgElement) (d : IDragData)
    (r : ImgElement × IDragData) (h : handleDragMove e img d = .ok r) :
    r.2.vertical = d.vertical := by
  simp only [handleDragMove] at h
  split at h
  · cases h
    rfl
  · split at h
    · cases h
    · split at h <;> (cases h; rfl)

/-- `stepEvent` on a move event never changes the `vertical` axis lock. -/
lemma stepEvent_move_vertical (s : BannerState) (e : MTEvent) :
    (stepEvent s (.move e)).drag.vertical = s.drag.vertical := by
  simp only [stepEvent]
  split
  · next img' d' heq => exact handleDragMove_vertical e s.img s.drag (img', d') heq
  · rfl

/-- The persisted normalization `Math.round(pct * 1000) / 100000` equals
`pct / 100` rounded to 5 decimal places. -/
lemma roundNorm_eq_round5 (pct : ℚ) : roundNorm pct = round5 (pct / 100) := by
  unfold roundNorm round5
  have h : pct / 100 * 100000 = pct * 1000 := by ring
  rw [h]

/-- Rounding to 5 decimals keeps a value of `[0,1]` inside `[0,1]`. -/
lemma round5_bounds (q : ℚ) (h0 : 0 ≤ q) (h1 : q ≤ 1) :
    0 ≤ round5 q ∧ round5 q ≤ 1 := by
  unfold round5 jsRound
  constructor
  · apply div_nonneg _ (by norm_num)
    have : (0 : ℤ) ≤ ⌊q * 100000 + 1 / 2⌋ :=
      Int.le_floor.mpr (by push_cast; linarith)
    exact_mod_cast this
  · rw [div_le_one (by norm_num)]
    have : ⌊q * 100000 + 1 / 2⌋ ≤ 100000 :=
      Int.floor_le_iff.mpr (by push_cast; linarith)
    exact_mod_cast this

/-- lodash `clamp` lands in the interval when the bounds are ordered. -/
lemma clampQ_mem (q lo hi : ℚ) (h : lo ≤ hi) :
    lo ≤ clampQ q lo hi ∧ clampQ q lo hi ≤ hi := by
  unfold clampQ
  dsimp only
  split_ifs <;> constructor <;> linarith

/-- lodash `clamp` is the identity inside the interval. -/
lemma clampQ_eq_self (q lo hi : ℚ) (h0 : lo ≤ q) (h1 : q ≤ hi) :
    clampQ q lo hi = q := by
  unfold clampQ
  simp [h0, h1]

/-! Claims -/

/-- C1: on a 400px-wide, 200px-tall rendered image with the vertical axis
locked and displayed position "50% 50%", a start at (100,100) followed by
a move to (100,80) yields displayed position "50% 60%"
(delta = (100-80)/200*100 = 10, new y = clamp(50+10,0,100) = 60), and the
end event issues one persistence call whose patch is {y: 0.6} with the `x`
field absent. -/
theorem claim_C1 :
    (runEvents state0 [.start (mkMouse 100 100) .none,
        .move (mkMouse 100 80)]).img.objectPosition = (50, 60)
    ∧ (runEvents state0 [.start (mkMouse 100 100) .none,
        .move (mkMouse 100 80), .endEv]).calls
      = [{ x := none, y := some (6 / 10) }] := by
  constructor <;>
    norm_num [runEvents, stepEvent, handleDragStart, handleDragMove, handleDragEnd,
      getMousePos, isModPressed, isMouseEvent, jsDiv, jsMulPos, jsAdd, jsClamp,
      clampQ, jsGe, setObjectPosition, initialDragData, roundNorm, jsRound,
      state0, img400x200, mkMouse]

/-- C2: an accepted gesture start locks the vertical axis exactly when
naturalHeight/naturalWidth ≥ clientHeight/clientWidth, and no move event
ever changes the lock for the rest of the gesture. -/
theorem claim_C2 (e : MTEvent) (img : ImgElement) (d : IDragData)
    (mod : BannerDragModOption) (p : ℚ × ℚ)
    (hpos : getMousePos e = some p)
    (hmod : isModPressed e mod = true ∨ isMouseEvent e = false)
    (hnw : 0 < img.naturalWidth) (hcw : 0 < img.clientWidth) :
    handleDragStart e img d mod
      = .ok { x := some p.1, y := some p.2, isDragging := true,
              vertical := decide (img.clientHeight / img.clientWidth
                            ≤ img.naturalHeight / img.naturalWidth) }
    ∧ ∀ s e2, (stepEvent s (.move e2)).drag.vertical = s.drag.vertical := by
  constructor
  · obtain ⟨px, py⟩ := p
    have hguard : (!isModPressed e mod && isMouseEvent e) = false := by
      rcases hmod with h | h <;> simp [h]
    simp [handleDragStart, hguard, hpos, jsGe, jsDiv, hnw.ne', hcw.ne']
  · exact fun s e2 => stepEvent_move_vertical s e2

/-- C2 witness: the general start/lock theorem applied to a concrete
accepted mouse start on the 400×200 image. -/
theorem claim_C2_witness :
    handleDragStart (mkMouse 100 100) img400x200 initialDragData .none
      = .ok { x := some 100, y := some 100, isDragging := true,
              vertical := decide (img400x200.clientHeight / img400x200.clientWidth
                            ≤ img400x200.naturalHeight / img400x200.naturalWidth) }
    ∧ (stepEvent state0 (.move (mkMouse 3 4))).drag.vertical
      = state0.drag.vertical := by
  have h := claim_C2 (mkMouse 100 100) img400x200 initialDragData .none (100, 100)
    rfl (Or.inl rfl) (by norm_num [img400x200]) (by norm_num [img400x200])
  exact ⟨h.1, h.2 state0 (mkMouse 3 4)⟩

/-- C3: a mouse start with the configured modifier policy unsatisfied is
refused (drag data unchanged); a touch start (with a touch point) is
accepted regardless of the policy and held modifiers; a mouse start under
the none-required policy is always accepted. -/
theorem claim_C3 (img : ImgElement) (d : IDragData) :
    (∀ m mod, isModPressed (.mouse m) mod = false →
        handleDragStart (.mouse m) img d mod = .ok d)
    ∧ (∀ t mod, t.targetTouches ≠ [] →
        ∃ d', handleDragStart (.touch t) img d mod = .ok d'
          ∧ d'.isDragging = true)
    ∧ (∀ m, ∃ d', handleDragStart (.mouse m) img d .none = .ok d'
          ∧ d'.isDragging = true) := by
  refine ⟨?_, ?_, ?_⟩
  · intro m mod h
    simp [handleDragStart, h, isMouseEvent]
  · intro t mod ht
    match hts : t.targetTouches with
    | [] => exact absurd hts ht
    | tp :: rest =>
      have hstart : handleDragStart (.touch t) img d mod
          = .ok { d with
                  x := some tp.clientX
                  y := some tp.clientY
                  isDragging := true
                  vertical := jsGe (jsDiv img.naturalHeight img.naturalWidth)
                                   (jsDiv img.clientHeight img.clientWidth) } := by
        simp [handleDragStart, isMouseEvent, getMousePos, hts]
      exact ⟨_, hstart, rfl⟩
  · intro m
    have hstart : handleDragStart (.mouse m) img d .none
        = .ok { d with
                x := some m.clientX
                y := some m.clientY
                isDragging := true
                vertical := jsGe (jsDiv img.naturalHeight img.naturalWidth)
                                 (jsDiv img.clientHeight img.clientWidth) } := by
      simp [handleDragStart, isModPressed, getMousePos]
    exact ⟨_, hstart, rfl⟩

/-- C3 witness: the gating theorem applied to the 400×200 image and fresh
drag data, at a modifier-less mouse event under the ctrl policy, a
one-touch event under the ctrl policy, and a mouse event under the
none-required policy. -/
theorem claim_C3_witness :
    handleDragStart (mkMouse 5 6) img400x200 initialDragData .ctrl
      = .ok initialDragData
    ∧ (∃ d', handleDragStart
          (.touch { targetTouches := [{ clientX := 7, clientY := 8 }],
                    altKey := false, ctrlKey := false, metaKey := false,
                    shiftKey := false })
          img400x200 initialDragData .ctrl = .ok d' ∧ d'.isDragging = true)
    ∧ (∃ d', handleDragStart (mkMouse 5 6) img400x200 initialDragData .none
        = .ok d' ∧ d'.isDragging = true) := by
  have h := claim_C3 img400x200 initialDragData
  exact ⟨h.1 _ .ctrl rfl, h.2.1 _ .ctrl (by simp), h.2.2 _⟩

/-- C8 counterexample: ending the concrete active gesture anchored at
(100,100) leaves the stored x coordinate equal to `some 100`, not null —
the session is not fully reset as the claim states. -/
theorem claim_C8_cex : ((handleDragEnd img400x200 activeDrag).1).x ≠ none := by
  simp [handleDragEnd, activeDrag]

/-- C8 amended: after a completed gesture the active flag is false, but
the stored pointer coordinates are not reset to null — they keep the last
recorded pointer position. -/
theorem claim_C8 (img : ImgElement) (d : IDragData) (hd : d.isDragging = true) :
    ((handleDragEnd img d).1).isDragging = false
    ∧ ((handleDragEnd img d).1).x = d.x
    ∧ ((handleDragEnd img d).1).y = d.y := by
  simp [handleDragEnd, hd]

/-- C8 witness: the amended theorem at the concrete active session. -/
theorem claim_C8_witness :
    ((handleDragEnd img400x200 activeDrag).1).isDragging = false
    ∧ ((handleDragEnd img400x200 activeDrag).1).x = activeDrag.x
    ∧ ((handleDragEnd img400x200 activeDrag).1).y = activeDrag.y :=
  claim_C8 img400x200 activeDrag rfl

/-- C10: a start event arriving while a gesture is active is not ignored:
it overwrites the stored anchor with the new pointer position and
recomputes the axis lock from the element geometry at that moment; in
particular a mid-gesture start on an image whose natural aspect ratio has
dropped below the rendered one flips the lock from vertical to horizontal. -/
theorem claim_C10 (e : MTEvent) (img : ImgElement) (d : IDragData)
    (mod : BannerDragModOption) (p : ℚ × ℚ)
    (_hd : d.isDragging = true)
    (hpos : getMousePos e = some p)
    (hmod : isModPressed e mod = true ∨ isMouseEvent e = false) :
    handleDragStart e img d mod
      = .ok { x := some p.1, y := some p.2, isDragging := true,
              vertical := jsGe (jsDiv img.naturalHeight img.naturalWidth)
                              (jsDiv img.clientHeight img.clientWidth) }
    ∧ handleDragStart (mkMouse 100 100) wideImg activeDrag .none
      = .ok { x := some 100, y := some 100, isDragging := true, vertical := false } := by
  constructor
  · obtain ⟨px, py⟩ := p
    have hguard : (!isModPressed e mod && isMouseEvent e) = false := by
      rcases hmod with h | h <;> simp [h]
    simp [handleDragStart, hguard, hpos]
  · norm_num [handleDragStart, getMousePos, mkMouse, isModPressed, isMouseEvent,
      jsGe, jsDiv, wideImg, decide_eq_false_iff_not]

/-- C4: the persistence patch of a completed gesture carries exactly the
locked axis's field — `y` when vertical, `x` when horizontal, never both —
whose value is the final displayed percentage divided by 100 and rounded
to 5 decimal places, a value in [0,1] whenever the percentage is in
[0,100]. -/
theorem claim_C4 (img : ImgElement) (d : IDragData) (hd : d.isDragging = true)
    (hx0 : 0 ≤ img.objectPosition.1) (hx1 : img.objectPosition.1 ≤ 100)
    (hy0 : 0 ≤ img.objectPosition.2) (hy1 : img.objectPosition.2 ≤ 100) :
    (handleDragEnd img d).2
      = some (if d.vertical
              then { x := none, y := some (round5 (img.objectPosition.2 / 100)) }
              else { x := some (round5 (img.objectPosition.1 / 100)), y := none })
    ∧ (0 ≤ round5 (img.objectPosition.1 / 100) ∧ round5 (img.objectPosition.1 / 100) ≤ 1)
    ∧ (0 ≤ round5 (img.objectPosition.2 / 100) ∧ round5 (img.objectPosition.2 / 100) ≤ 1) := by
  refine ⟨?_, ?_, ?_⟩
  · simp [handleDragEnd, hd, roundNorm_eq_round5]
  · exact round5_bounds _ (div_nonneg hx0 (by norm_num))
      ((div_le_one (by norm_num)).mpr hx1)
  · exact round5_bounds _ (div_nonneg hy0 (by norm_num))
      ((div_le_one (by norm_num)).mpr hy1)

/-- C4 witness: the patch theorem at the concrete vertically locked
session over the 400×200 image displayed at "50% 50%". -/
theorem claim_C4_witness :
    (handleDragEnd img400x200 activeDrag).2
      = some (if activeDrag.vertical
              then { x := none, y := some (round5 (img400x200.objectPosition.2 / 100)) }
              else { x := some (round5 (img400x200.objectPosition.1 / 100)), y := none })
    ∧ (0 ≤ round5 (img400x200.objectPosition.1 / 100)
       ∧ round5 (img400x200.objectPosition.1 / 100) ≤ 1)
    ∧ (0 ≤ round5 (img400x200.objectPosition.2 / 100)
       ∧ round5 (img400x200.objectPosition.2 / 100) ≤ 1) :=
  claim_C4 img400x200 activeDrag rfl (by norm_num [img400x200]) (by norm_num [img400x200])
    (by norm_num [img400x200]) (by norm_num [img400x200])

/-- C5: move and end events while the session is inactive are no-ops (no
position change, no persistence call); a second end event after a
completed gesture adds no further call, so a double end issues exactly one
call; and two full gestures issue exactly two persistence calls in event
order. -/
theorem claim_C5 (img : ImgElement) (d : IDragData) (e : MTEvent) (s : BannerState)
    (hd : d.isDragging = false) (hs : s.drag.isDragging = true) :
    handleDragMove e img d = .ok (img, d)
    ∧ handleDragEnd img d = (d, none)
    ∧ (stepEvent (stepEvent s .endEv) .endEv).calls
      = s.calls ++ [if s.drag.vertical
                    then { x := none, y := some (roundNorm s.img.objectPosition.2) }
                    else { x := some (roundNorm s.img.objectPosition.1), y := none }]
    ∧ (runEvents state0 [.start (mkMouse 100 100) .none, .move (mkMouse 100 80), .endEv,
          .start (mkMouse 100 100) .none, .move (mkMouse 100 60), .endEv]).calls
      = [{ x := none, y := some (6 / 10) }, { x := none, y := some (8 / 10) }] := by
  refine ⟨?_, ?_, ?_, ?_⟩
  · simp [handleDragMove, hd]
  · simp [handleDragEnd, hd]
  · simp [stepEvent, handleDragEnd, hs]
  · norm_num [runEvents, stepEvent, handleDragStart, handleDragMove, handleDragEnd,
      getMousePos, isModPressed, isMouseEvent, jsDiv, jsMulPos, jsAdd, jsClamp,
      clampQ, jsGe, setObjectPosition, initialDragData, roundNorm, jsRound,
      state0, img400x200, mkMouse]

/-- A banner state with a vertically locked gesture in progress. -/
def activeState : BannerState :=
  { img := img400x200, drag := activeDrag, calls := [] }

/-- C5 witness: the no-op/at-most-once theorem at a concrete inactive
session and a concrete active one. -/
theorem claim_C5_witness :
    handleDragMove (mkMouse 1 2) img400x200 initialDragData
      = .ok (img400x200, initialDragData)
    ∧ handleDragEnd img400x200 initialDragData = (initialDragData, none)
    ∧ (stepEvent (stepEvent activeState .endEv) .endEv).calls
      = activeState.calls
        ++ [if activeState.drag.vertical
            then { x := none, y := some (roundNorm activeState.img.objectPosition.2) }
            else { x := some (roundNorm activeState.img.objectPosition.1), y := none }]
    ∧ (runEvents state0 [.start (mkMouse 100 100) .none, .move (mkMouse 100 80), .endEv,
          .start (mkMouse 100 100) .none, .move (mkMouse 100 60), .endEv]).calls
      = [{ x := none, y := some (6 / 10) }, { x := none, y := some (8 / 10) }] :=
  claim_C5 img400x200 initialDragData (mkMouse 1 2) activeState rfl rfl

/-- C6 counterexample: a touch start carrying zero touch points is not a
graceful no-op — destructuring `e.targetTouches[0]` throws, so the handler
aborts with an error instead of returning. -/
theorem claim_C6_cex :
    handleDragStart (.touch zeroTouchEv) img400x200 initialDragData .none
      = .error () := by
  simp [handleDragStart, getMousePos, isMouseEvent, zeroTouchEv]

/-- C6 amended: a touch event with zero touch points makes the start and
move handlers throw (a `TypeError` from `e.targetTouches[0]`) rather than
return normally; the exception is raised before any mutation, so the
gesture does not start and the session state and displayed position are
unchanged — but the handlers do not complete without crashing. -/
theorem claim_C6 (t : TouchEvent) (img : ImgElement) (d : IDragData)
    (mod : BannerDragModOption) (s : BannerState)
    (ht : t.targetTouches = []) :
    handleDragStart (.touch t) img d mod = .error ()
    ∧ (d.isDragging = true → handleDragMove (.touch t) img d = .error ())
    ∧ stepEvent s (.start (.touch t) mod) = s
    ∧ stepEvent s (.move (.touch t)) = s := by
  have h1 : ∀ (i : ImgElement) (d2 : IDragData),
      handleDragStart (.touch t) i d2 mod = .error () := by
    intro i d2
    simp [handleDragStart, isMouseEvent, getMousePos, ht]
  have h2 : ∀ (i : ImgElement) (d2 : IDragData),
      handleDragMove (.touch t) i d2
        = if d2.isDragging then .error () else .ok (i, d2) := by
    intro i d2
    by_cases hd2 : d2.isDragging
    · simp [handleDragMove, hd2, getMousePos, ht]
    · simp [handleDragMove, hd2]
  refine ⟨h1 img d, fun hd2 => by rw [h2, if_pos hd2], ?_, ?_⟩
  · simp [stepEvent, h1]
  · by_cases hsd : s.drag.isDragging <;> simp [stepEvent, h2, hsd]

/-- C6 witness: the amended theorem at the concrete zero-touch event
against an active session. -/
theorem claim_C6_witness :
    handleDragStart (.touch zeroTouchEv) img400x200 activeDrag .ctrl = .error ()
    ∧ handleDragMove (.touch zeroTouchEv) img400x200 activeDrag = .error ()
    ∧ stepEvent activeState (.start (.touch zeroTouchEv) .ctrl) = activeState
    ∧ stepEvent activeState (.move (.touch zeroTouchEv)) = activeState := by
  have h := claim_C6 zeroTouchEv img400x200 activeDrag .ctrl activeState rfl
  exact ⟨h.1, h.2.1 rfl, h.2.2.1, h.2.2.2⟩

/-- C7 counterexample: a move on a zero-height rendered element with the
vertical axis locked is not skipped — the infinite delta clamps the
displayed y to 100%, changing the position from "50% 50%" to "50% 100%". -/
theorem claim_C7_cex :
    handleDragMove (mkMouse 100 80) zeroHeightImg activeDrag
      = .ok ({ clientWidth := 400
               clientHeight := 0
               naturalWidth := 400
               naturalHeight := 200
               objectPosition := (50, 100) },
             { x := some 100
               y := some 80
               isDragging := true
               vertical := true })
    ∧ ((50 : ℚ), (100 : ℚ)) ≠ zeroHeightImg.objectPosition := by
  constructor
  · norm_num [handleDragMove, getMousePos, mkMouse, jsDiv, jsMulPos, jsAdd, jsClamp,
      clampQ, setObjectPosition, activeDrag, zeroHeightImg]
  · norm_num [zeroHeightImg]

/-- C7 amended: a zero rendered dimension on the locked axis at move time
is not guarded.  For every move event that carries a pointer position
(mouse, or touch with at least one touch point) while a gesture is
active, the handler does not crash, but instead of leaving the position
unchanged it jumps the locked axis's displayed coordinate to 100 if the
pointer coordinate on that axis decreased, to 0 if it increased, and only
when that coordinate is exactly unchanged does the position stay (the
`NaN` style write is rejected); the anchor is updated in every case. -/
theorem claim_C7 (e : MTEvent) (img : ImgElement) (d : IDragData)
    (p : ℚ × ℚ) (x0 y0 : ℚ)
    (hd : d.isDragging = true) (hpos : getMousePos e = some p)
    (hx : d.x = some x0) (hy : d.y = some y0)
    (hdim : (d.vertical = true ∧ img.clientHeight = 0)
          ∨ (d.vertical = false ∧ img.clientWidth = 0)) :
    handleDragMove e img d
      = .ok ((if d.vertical = true
              then (if p.2 < y0
                    then { img with objectPosition := (img.objectPosition.1, 100) }
                    else if y0 < p.2
                    then { img with objectPosition := (img.objectPosition.1, 0) }
                    else img)
              else (if p.1 < x0
                    then { img with objectPosition := (100, img.objectPosition.2) }
                    else if x0 < p.1
                    then { img with objectPosition := (0, img.objectPosition.2) }
                    else img)),
             { d with x := some p.1, y := some p.2 }) := by
  obtain ⟨px, py⟩ := p
  rcases hdim with ⟨hv, hh⟩ | ⟨hv, hw⟩
  · rcases lt_trichotomy py y0 with h | h | h
    · have hgt : 0 < y0 - py := by linarith
      simp [handleDragMove, hd, hpos, hy, hh, hv, jsDiv, jsMulPos, jsAdd,
        jsClamp, setObjectPosition, h, hgt.ne', hgt, not_lt.mpr hgt.le,
        asymm h]
    · simp [handleDragMove, hd, hpos, hy, hh, hv, jsDiv, jsMulPos, jsAdd,
        jsClamp, setObjectPosition, h]
    · have hlt : y0 - py < 0 := by linarith
      simp [handleDragMove, hd, hpos, hy, hh, hv, jsDiv, jsMulPos, jsAdd,
        jsClamp, setObjectPosition, h, hlt, not_lt.mpr hlt.le, asymm h]
  · rcases lt_trichotomy px x0 with h | h | h
    · have hgt : 0 < x0 - px := by linarith
      simp [handleDragMove, hd, hpos, hx, hw, hv, jsDiv, jsMulPos, jsAdd,
        jsClamp, setObjectPosition, h, hgt.ne', hgt, not_lt.mpr hgt.le,
        asymm h]
    · simp [handleDragMove, hd, hpos, hx, hw, hv, jsDiv, jsMulPos, jsAdd,
        jsClamp, setObjectPosition, h]
    · have hlt : x0 - px < 0 := by linarith
      simp [handleDragMove, hd, hpos, hx, hw, hv, jsDiv, jsMulPos, jsAdd,
        jsClamp, setObjectPosition, h, hlt, not_lt.mpr hlt.le, asymm h]

/-- A 200-tall image whose rendered width is 0, displayed at `"50% 50%"`. -/
def zeroWidthImg : ImgElement :=
  { clientWidth := 0, clientHeight := 200, naturalWidth := 400,
    naturalHeight := 200, objectPosition := (50, 50) }

/-- Drag data of a gesture in progress, horizontally locked, anchored at
`(100, 100)`. -/
def activeDragH : IDragData :=
  { x := some 100, y := some 100, isDragging := true, vertical := false }

/-- C7 witness: the amended theorem at a concrete zero-width move of a
horizontally locked gesture — the displayed x jumps to 100%. -/
theorem claim_C7_witness :
    handleDragMove (mkMouse 80 100) zeroWidthImg activeDragH
      = .ok ((if activeDragH.vertical = true
              then (if (100 : ℚ) < 100
                    then { zeroWidthImg with objectPosition := (zeroWidthImg.objectPosition.1, 100) }
                    else if (100 : ℚ) < 100
                    then { zeroWidthImg with objectPosition := (zeroWidthImg.objectPosition.1, 0) }
                    else zeroWidthImg)
              else (if (80 : ℚ) < 100
                    then { zeroWidthImg with objectPosition := (100, zeroWidthImg.objectPosition.2) }
                    else if (100 : ℚ) < 80
                    then { zeroWidthImg with objectPosition := (0, zeroWidthImg.objectPosition.2) }
                    else zeroWidthImg)),
             { activeDragH with x := some 80, y := some 100 }) :=
  claim_C7 (mkMouse 80 100) zeroWidthImg activeDragH (80, 100) 100 100
    rfl rfl rfl rfl (Or.inr ⟨rfl, rfl⟩)

/-- C9: the initial displayed position defaults a missing component to
0.5, clamps each component into [0,1] and renders the percentage pair; a
persisted in-range value is reproduced exactly (so `{x: 0.333}` with `y`
absent renders as "33.3% 50%"), and out-of-range components are clamped. -/
theorem claim_C9 (x0 y0 : Option ℚ) (q : ℚ) (h0 : 0 ≤ q) (h1 : q ≤ 1) :
    initialObjectPosition x0 y0
      = (clampQ (x0.getD (1 / 2)) 0 1 * 100, clampQ (y0.getD (1 / 2)) 0 1 * 100)
    ∧ (0 ≤ (initialObjectPosition x0 y0).1 ∧ (initialObjectPosition x0 y0).1 ≤ 100
       ∧ 0 ≤ (initialObjectPosition x0 y0).2 ∧ (initialObjectPosition x0 y0).2 ≤ 100)
    ∧ initialObjectPosition (some q) none = (q * 100, 50)
    ∧ initialObjectPosition (some (333 / 1000)) none = (333 / 10, 50)
    ∧ initialObjectPosition (some 2) (some (-1)) = (100, 0) := by
  refine ⟨rfl, ?_, ?_, ?_, ?_⟩
  · obtain ⟨hA, hB⟩ := clampQ_mem (x0.getD (1 / 2)) 0 1 (by norm_num)
    obtain ⟨hC, hD⟩ := clampQ_mem (y0.getD (1 / 2)) 0 1 (by norm_num)
    unfold initialObjectPosition
    exact ⟨by linarith, by linarith, by linarith, by linarith⟩
  · have e1 := clampQ_eq_self q 0 1 h0 h1
    have e2 := clampQ_eq_self (1 / 2) 0 1 (by norm_num) (by norm_num)
    simp only [initialObjectPosition, Option.getD_some, Option.getD_none, e1, e2]
    norm_num
  · norm_num [initialObjectPosition, clampQ]
  · norm_num [initialObjectPosition, clampQ]

/-- C9 witness: the round-trip theorem at the persisted value 0.333 and at
the in-range value 1/4. -/
theorem claim_C9_witness :
    initialObjectPosition (some (333 / 1000)) none = (333 / 10, 50)
    ∧ initialObjectPosition (some (1 / 4)) none = (1 / 4 * 100, 50) := by
  have h := claim_C9 (some (333 / 1000)) none (1 / 4) (by norm_num) (by norm_num)
  exact ⟨h.2.2.2.1, h.2.2.1⟩

/-- C10 witness: the theorem applied to a concrete mid-gesture mouse start
on the 400×200 image. -/
theorem claim_C10_witness :
    handleDragStart (mkMouse 30 40) img400x200 activeDrag .none
      = .ok { x := some 30, y := some 40, isDragging := true,
              vertical := jsGe (jsDiv img400x200.naturalHeight img400x200.naturalWidth)
                              (jsDiv img400x200.clientHeight img400x200.clientWidth) }
    ∧ handleDragStart (mkMouse 100 100) wideImg activeDrag .none
      = .ok { x := some 100, y := some 100, isDragging := true, vertical := false } :=
  claim_C10 (mkMouse 30 40) img400x200 activeDrag .none (30, 40) rfl rfl (Or.inl rfl)

end Banners
